import Mathlib

/-!
Shallow embedding of the conversational RAG turn pipeline of
`src/backend/main.py` (FastAPI backend): the system-instruction cache
(`load_system_prompt` / `update_system_prompt`), the query contextualizer,
the retriever adapter, the answer synthesizer and the turn orchestrator
(the `chat` endpoint).  External collaborators (the generative model, the
vector index, the Supabase remote store, the local JSON file) are modelled
as explicit environment values; Python exceptions are modelled with
`Except String`.
-/

/-- Python truthiness of an optional string (`if _cached_prompt:` style
tests): `None` and the empty string are falsy. -/
def truthy : Option String → Bool
  | some s => s ≠ ""
  | none => false

/-- Split a character list at every character satisfying `p`, keeping
empty pieces (structural helper for `pySplit`). -/
def splitChars (p : Char → Bool) : List Char → List (List Char)
  | [] => [[]]
  | c :: cs =>
    if p c then [] :: splitChars p cs
    else
      match splitChars p cs with
      | [] => [[c]]
      | w :: ws => (c :: w) :: ws

/-- Python `str.split()` with no arguments: split on whitespace runs and
drop empty pieces. -/
def pySplit (s : String) : List String :=
  ((splitChars Char.isWhitespace s.data).map (fun w => String.mk w)).filter
    (fun w => w ≠ "")

/-- Python `dict.get(k, default)` over an association-list model of a
JSON object. -/
def dictGet (d : List (String × String)) (k dflt : String) : String :=
  match d.find? (fun p => p.1 = k) with
  | some p => p.2
  | none => dflt

/-- Lookup without a default (`dict.get(k)`), used to talk about a key
being absent. -/
def dictFind (d : List (String × String)) (k : String) : Option String :=
  (d.find? (fun p => p.1 = k)).map (fun p => p.2)

/-- Python `str.strip()` with no arguments: drop leading and trailing
whitespace (structural model over the character list). -/
def pyStrip (s : String) : String :=
  ⟨((s.data.dropWhile Char.isWhitespace).reverse.dropWhile
      Char.isWhitespace).reverse⟩

/-! ## System instruction cache (`main.py` lines 321-417) -/

/-- `DEFAULT_PROMPT = ""` (main.py line 322): the hardcoded final
fallback of `load_system_prompt`. -/
def DEFAULT_PROMPT : String := ""

/-- State of the local durable file `system_prompt.json`: absent,
present but unreadable (open/parse raises), or present with a parsed
`"system_prompt"` entry (`none` when the key is missing or null). -/
inductive FileState where
  | absent
  | corrupt
  | stored (v : Option String)
deriving DecidableEq

/-- The cache's mutable state: `mem` models the module-global
`_cached_prompt`, `file` models `system_prompt.json` on disk. -/
structure CacheState where
  mem : Option String
  file : FileState
deriving DecidableEq

/-- Environment for one pass through the cache code: whether the
Supabase url/key pair is configured, the outcome of `requests.get`
(`.ok (status, rows)` where each row is its `setting_value`, `.error`
when the request raises), and whether the best-effort file write
succeeds. -/
structure PromptEnv where
  supabaseConfigured : Bool
  remoteFetch : Except String (Nat × List (Option String))
  writeOk : Bool

/-- The value the Supabase tier yields (main.py lines 338-361): a
successful 200 response whose first row has a truthy `setting_value`;
anything else (not configured, raised request, other status, no rows,
missing or empty value) yields nothing. -/
def remoteVal (env : PromptEnv) : Option String :=
  if env.supabaseConfigured then
    match env.remoteFetch with
    | .ok (status, rows) =>
      if status = 200 then
        match rows.head? with
        | some (some s) => if s ≠ "" then some s else none
        | _ => none
      else none
    | .error _ => none
  else none

/-- The value the local-file tier yields (main.py lines 366-375): a
readable file whose `system_prompt` entry is truthy. -/
def fileVal (file : FileState) : Option String :=
  match file with
  | .stored (some c) => if c ≠ "" then some c else none
  | _ => none

/-- Result of one `load_system_prompt` call. `ioReads` counts the
resolution I/O performed: remote fetch attempts plus local file read
attempts (the best-effort cache write after a successful fetch is not a
read and is not counted). -/
structure LoadResult where
  result : String
  state : CacheState
  ioReads : Nat
deriving DecidableEq

/-- `load_system_prompt(force_sync)` (main.py lines 327-382): memory →
Supabase (caching to memory and best-effort to file) → local file
(adopted into memory) → `DEFAULT_PROMPT` when memory is falsy, else the
old memory value. -/
def load_system_prompt (env : PromptEnv) (st : CacheState) (force_sync : Bool) :
    LoadResult :=
  if truthy st.mem && !force_sync then
    { result := st.mem.getD "", state := st, ioReads := 0 }
  else
    let fetchReads := if env.supabaseConfigured then 1 else 0
    match remoteVal env with
    | some s =>
      { result := s,
        state := { mem := some s,
                   file := if env.writeOk then .stored (some s) else st.file },
        ioReads := fetchReads }
    | none =>
      let fileReads := if st.file = FileState.absent then 0 else 1
      match fileVal st.file with
      | some c =>
        { result := c, state := { st with mem := some c },
          ioReads := fetchReads + fileReads }
      | none =>
        if truthy st.mem then
          { result := st.mem.getD "", state := st,
            ioReads := fetchReads + fileReads }
        else
          { result := DEFAULT_PROMPT, state := st,
            ioReads := fetchReads + fileReads }

/-- `str(HTTPException(status, detail))` as starlette renders it. -/
def strHTTPException (status : Nat) (detail : String) : String :=
  toString status ++ ": " ++ detail

/-- Result of a `PUT /settings/system-prompt` call: the state after the
call and either an error `(status, detail)` raised as `HTTPException`
or the success payload `(message, system_prompt)`. -/
structure UpdateResult where
  state : CacheState
  outcome : Except (Nat × String) (String × String)

/-- `update_system_prompt` (main.py lines 395-417).  The body is the
request dict; only `prompt.get("system_prompt", "")` is read.  The
validation `raise HTTPException(status_code=400, ...)` sits inside the
route's own `try`, whose blanket `except Exception as e` re-raises it
as `HTTPException(status_code=500, detail=str(e))`; on the success path
memory is overwritten and the file write is best-effort (failure is
swallowed). -/
def update_system_prompt (env : PromptEnv) (st : CacheState)
    (body : List (String × String)) : UpdateResult :=
  let new_prompt := dictGet body "system_prompt" ""
  if new_prompt = "" ∨ pyStrip new_prompt = "" then
    { state := st,
      outcome := .error (500, strHTTPException 400 "System prompt cannot be empty") }
  else
    { state := { mem := some new_prompt,
                 file := if env.writeOk then .stored (some new_prompt) else st.file },
      outcome := .ok ("System prompt updated", new_prompt) }

/-! ## Chat turn pipeline (`main.py` lines 59-175) -/

/-- A retrieved document: `page_content` plus its metadata dict (only
the `filename` key is ever read, via `d.metadata.get('filename', 'doc')`). -/
structure Doc where
  page_content : String
  metadata : List (String × String)
deriving DecidableEq

/-- One history entry, a dict read with `msg.get('role', 'user')` and
`msg.get('content', '')` (main.py line 80). -/
structure HistMsg where
  role : Option String
  content : Option String
deriving DecidableEq

/-- The body of `POST /chat` (`ChatRequest` in main.py lines 59-63). -/
structure ChatRequest where
  message : String
  userId : String
  chatId : String
  history : List HistMsg

/-- One line of the history transcript: `f"{role}: {content}"` with the
dict defaults. -/
def histLine (m : HistMsg) : String :=
  m.role.getD "user" ++ ": " ++ m.content.getD ""

/-- Python `l[-n:]`. -/
def lastN {α : Type} (l : List α) (n : Nat) : List α :=
  l.drop (l.length - n)

/-- `chat_history_str` (main.py lines 77-80): the last 8 history
entries joined with newlines, or the empty string when the history is
empty. -/
def chatHistoryStr (history : List HistMsg) : String :=
  if history.length > 0 then
    String.intercalate "\n" ((lastN history 8).map histLine)
  else ""

/-- The rephrase prompt (main.py lines 87-89) rendered with its two
variables substituted. -/
def rephraseTemplate (chat_history question : String) : String :=
  "Given the following conversation and a follow-up question, rephrase the follow-up question into a standalone question for retrieval.\n\nChat History:\n"
    ++ chat_history ++ "\n\nFollow Up Input: " ++ question
    ++ "\n\nStandalone Question:"

/-- The general-knowledge prompt (main.py lines 115-126) rendered with
`sys_prompt`, `chat_history` and `question` substituted; the 12-space
runs reproduce the indentation inside the Python triple-quoted
f-string. -/
def generalTemplate (sys_prompt chat_history question : String) : String :=
  sys_prompt
    ++ "\n            \n            Chat History (Recent):\n            "
    ++ chat_history
    ++ "\n            \n            CRITICAL INSTRUCTIONS:"
    ++ "\n            - Scan the Chat History carefully. If the user previously mentioned names, companies, or details, USE THEM."
    ++ "\n            - If no context/history exists for the question, use your general knowledge."
    ++ "\n            - If the user provides a greeting, respond warmly."
    ++ "\n            \n            Question: " ++ question
    ++ "\n            Answer:"

/-- The grounded (RAG) prompt (main.py lines 133-150) rendered with its
four variables substituted. -/
def groundedTemplate (sys_prompt chat_history context question : String) : String :=
  sys_prompt
    ++ "\n            \n            Chat History (Recent):\n            "
    ++ chat_history
    ++ "\n            \n            Core Instructions:"
    ++ "\n            - You are a professional AI Advisor."
    ++ "\n            - PRIORITY 1: Use the provided Context documents below. They contain the specific data the user expects you to use."
    ++ "\n            - PRIORITY 2: Use the Chat History for conversation continuity (names, previous facts)."
    ++ "\n            - If the answer is in the Context, provide it directly and accurately."
    ++ "\n            - Cite your sources if possible."
    ++ "\n            \n            Context:\n            " ++ context
    ++ "\n\n            Question: " ++ question
    ++ "\n            \n            Answer:"

/-- One `[Source: label]: text` block (main.py line 153):
`f"[Source: {d.metadata.get('filename', 'doc')}]: {d.page_content}"`. -/
def sourceBlock (d : Doc) : String :=
  "[Source: " ++ dictGet d.metadata "filename" "doc" ++ "]: " ++ d.page_content

/-- The list comprehension of main.py line 153: one block per retrieved
document, in retrieval order. -/
def contextBlocks (docs : List Doc) : List String :=
  docs.map sourceBlock

/-- `context_text` (main.py line 153): the blocks joined with blank
lines. -/
def contextTextOf (docs : List Doc) : String :=
  String.intercalate "\n\n" (contextBlocks docs)

/-- An external call made during a turn: a prompt-template chain into
the generative model, a retriever invocation, or the bare
`llm.invoke(raw)` fallback call. -/
inductive Call where
  | llmChain (prompt : String)
  | retrieval (query : String)
  | llmDirect (input : String)
deriving DecidableEq

/-- Environment of one chat turn: the generative model (input prompt or
raw message to outcome), whether `vectorstore` is connected, and the
retriever (`retriever.invoke`). -/
structure ChatEnv where
  llm : String → Except String String
  vectorstoreOk : Bool
  retrieve : String → Except String (List Doc)

/-- `is_greeting` (main.py line 83): fewer than 4 whitespace-separated
words. -/
def is_greeting (message : String) : Bool :=
  (pySplit message).length < 4

/-- The contextualization step (main.py lines 83-95): when the history
transcript is truthy and the message is not a greeting, render the
rephrase prompt and invoke the model; a raised rephrase falls back to
the original message.  Returns the standalone question and the calls
made. -/
def contextualizeStep (cenv : ChatEnv) (chat_history_str message : String) :
    String × List Call :=
  if chat_history_str ≠ "" ∧ ¬ is_greeting message then
    let p := rephraseTemplate chat_history_str message
    match cenv.llm p with
    | .ok s => (s, [Call.llmChain p])
    | .error _ => (message, [Call.llmChain p])
  else (message, [])

/-- The standalone question a turn retrieves with. -/
def standaloneQuestion (cenv : ChatEnv) (req : ChatRequest) : String :=
  (contextualizeStep cenv (chatHistoryStr req.history) req.message).1

/-- The retrieval step (main.py lines 99-110): skipped entirely when
`vectorstore` is `None`; a raised retrieval leaves `context_docs`
empty.  Returns the documents and the calls made. -/
def retrievalStep (cenv : ChatEnv) (query : String) : List Doc × List Call :=
  if cenv.vectorstoreOk then
    match cenv.retrieve query with
    | .ok ds => (ds, [Call.retrieval query])
    | .error _ => ([], [Call.retrieval query])
  else ([], [])

/-- Fixed apology of the total-failure return (main.py line 175). -/
def APOLOGY : String :=
  "I encountered an error processing your request. Please try again in a moment."

/-- Outcome of the generation step under the route's outer
`try/except` (main.py lines 128-175). -/
structure GenResult where
  response : String
  err : Option String
  calls : List Call

/-- Generation with the orchestrator's fallback ladder: invoke the
model on the synthesis prompt; if that raises, the outer `except` makes
one direct `llm.invoke(request.message)` call on the raw original
message; if that also raises, return the fixed apology together with
`str(e)` of the synthesis exception (main.py lines 167-175). -/
def generationWithFallback (cenv : ChatEnv) (p rawMessage : String) : GenResult :=
  match cenv.llm p with
  | .ok r => { response := r, err := none, calls := [Call.llmChain p] }
  | .error e =>
    match cenv.llm rawMessage with
    | .ok r =>
      { response := r, err := none,
        calls := [Call.llmChain p, Call.llmDirect rawMessage] }
    | .error _ =>
      { response := APOLOGY, err := some e,
        calls := [Call.llmChain p, Call.llmDirect rawMessage] }

/-- Result of one chat turn.  `usedContext` records which generation
branch ran (grounded when `context_docs` was non-empty, the spec's
`usedContext` observable); `synthesisPrompt` is the prompt submitted to
the model at the generation step; `error` is the `"error"` key of the
returned JSON, present only on the total-failure return. -/
structure ChatOutcome where
  response : String
  error : Option String
  usedContext : Bool
  synthesisPrompt : String
  trace : List Call
  state : CacheState

/-- The `chat` endpoint (main.py lines 65-175): load the system prompt,
build the history transcript, contextualize, retrieve with the
standalone question, then synthesize — grounded over the assembled
context with the standalone question, or general-knowledge with the raw
original message — under the outer fallback ladder. -/
def chat (cenv : ChatEnv) (penv : PromptEnv) (st : CacheState)
    (req : ChatRequest) : ChatOutcome :=
  let loadRes := load_system_prompt penv st false
  let sys_prompt := loadRes.result
  let chat_history_str := chatHistoryStr req.history
  let ctxStep := contextualizeStep cenv chat_history_str req.message
  let standalone_question := ctxStep.1
  let retr := retrievalStep cenv standalone_question
  let context_docs := retr.1
  let preTrace := ctxStep.2 ++ retr.2
  if context_docs.isEmpty then
    let p := generalTemplate sys_prompt chat_history_str req.message
    let gen := generationWithFallback cenv p req.message
    { response := gen.response, error := gen.err, usedContext := false,
      synthesisPrompt := p, trace := preTrace ++ gen.calls,
      state := loadRes.state }
  else
    let context_text := contextTextOf context_docs
    let p := groundedTemplate sys_prompt chat_history_str context_text
      standalone_question
    let gen := generationWithFallback cenv p req.message
    { response := gen.response, error := gen.err, usedContext := true,
      synthesisPrompt := p, trace := preTrace ++ gen.calls,
      state := loadRes.state }

/-- Whether a call is the bare direct-model fallback call. -/
def isDirect : Call → Bool
  | Call.llmDirect _ => true
  | _ => false

/-! ## Fixtures for witnesses and counterexamples -/

/-- An environment where the remote store is unconfigured/unreachable. -/
def penvDown : PromptEnv := ⟨false, Except.error "down", true⟩

/-- A cache state with a populated memory tier. -/
def stMem : CacheState := ⟨some "P", FileState.absent⟩

/-- A cache state with every tier empty. -/
def stEmpty : CacheState := ⟨none, FileState.absent⟩

/-! ## Helper lemmas -/

/-- A successful remote resolution implies the Supabase pair was
configured and the adopted value is truthy. -/
theorem remoteVal_spec {env : PromptEnv} {s : String}
    (h : remoteVal env = some s) :
    env.supabaseConfigured = true ∧ s ≠ "" := by
  by_cases hc : env.supabaseConfigured = true
  case neg =>
    rw [Bool.not_eq_true] at hc
    rw [remoteVal, hc] at h
    simp at h
  refine ⟨hc, ?_⟩
  rw [remoteVal, hc] at h
  simp only [if_true] at h
  rcases henv : env.remoteFetch with e | ⟨status, rows⟩ <;> rw [henv] at h
  · simp at h
  · simp only [] at h
    by_cases hstat : status = 200
    case neg => rw [if_neg hstat] at h; simp at h
    rw [if_pos hstat] at h
    rcases hh : rows.head? with _ | v <;> rw [hh] at h
    · simp at h
    · rcases v with _ | s'
      · simp at h
      · by_cases hs' : s' = ""
        · rw [hs'] at h; simp at h
        · simp only [ne_eq, hs', not_false_eq_true, if_true] at h
          cases h
          exact hs'

/-! ## C2 -/

/-- C2 (amended): for every call to the cache's get where the in-memory
value is absent (falsy), the remote fetch fails or yields nothing, and
the local durable file yields nothing, the returned value is the
hardcoded baseline `DEFAULT_PROMPT`, and get never fails; in this code
that baseline is the empty string (main.py line 322), not a non-empty
one. -/
theorem c2_get_falls_back_to_hardcoded_baseline
    (penv : PromptEnv) (st : CacheState)
    (hmem : truthy st.mem = false)
    (hremote : remoteVal penv = none)
    (hfile : fileVal st.file = none) :
    (load_system_prompt penv st false).result = DEFAULT_PROMPT := by
  simp [load_system_prompt, hmem, hremote, hfile]

/-- Witness for C2: a concrete all-tiers-empty state reaching the
baseline. -/
theorem c2_witness :
    truthy stEmpty.mem = false ∧
    remoteVal penvDown = none ∧
    fileVal stEmpty.file = none ∧
    (load_system_prompt penvDown stEmpty false).result = DEFAULT_PROMPT :=
  ⟨rfl, rfl, rfl,
    c2_get_falls_back_to_hardcoded_baseline penvDown stEmpty rfl rfl rfl⟩

/-- C2 counterexample: at a concrete state where every tier fails, the
value returned is the empty string — the hardcoded baseline is not
non-empty as the claim states. -/
theorem c2_counterexample_baseline_is_empty :
    (load_system_prompt penvDown stEmpty false).result = "" := rfl

/-! ## C6 -/

/-- C6: updating the instructions with an empty or whitespace-only value
fails and leaves both the in-memory value and the local file unchanged,
but the surfaced failure is `HTTPException(500, str(HTTPException(400,
"System prompt cannot be empty")))`: the route's own 400 validation
rejection is swallowed by its blanket `except Exception` and re-raised
as a 500 server error instead of a rejected-request signal. -/
theorem c6_empty_update_rejected_as_500
    (penv : PromptEnv) (st : CacheState) :
    (update_system_prompt penv st [("system_prompt", "")]).state = st ∧
    (update_system_prompt penv st [("system_prompt", "")]).outcome =
      .error (500, strHTTPException 400 "System prompt cannot be empty") ∧
    (update_system_prompt penv st [("system_prompt", "   ")]).state = st ∧
    (update_system_prompt penv st [("system_prompt", "   ")]).outcome =
      .error (500, strHTTPException 400 "System prompt cannot be empty") :=
  ⟨rfl, rfl, rfl, rfl⟩

/-! ## C7 -/

/-- C7: calling get(forceSync=false) twice in succession with no
intervening set returns the identical string both times and performs at
most one resolution I/O call (remote fetch or file read); whenever the
in-memory value is present (truthy), both calls short-circuit via
memory with no I/O at all. -/
theorem c7_get_idempotent_one_io
    (penv : PromptEnv) (st : CacheState)
    (h : truthy st.mem = true ∨ (remoteVal penv).isSome = true) :
    (load_system_prompt penv st false).result =
      (load_system_prompt penv (load_system_prompt penv st false).state false).result ∧
    (load_system_prompt penv st false).ioReads +
      (load_system_prompt penv (load_system_prompt penv st false).state false).ioReads ≤ 1 ∧
    (truthy st.mem = true →
      (load_system_prompt penv st false).ioReads = 0 ∧
      (load_system_prompt penv (load_system_prompt penv st false).state false).ioReads = 0) := by
  rcases h with hm | hr
  · simp [load_system_prompt, hm]
  · by_cases hm : truthy st.mem = true
    · simp [load_system_prompt, hm]
    · rw [Bool.not_eq_true] at hm
      obtain ⟨s, hs⟩ := Option.isSome_iff_exists.mp hr
      obtain ⟨hconf, hne⟩ := remoteVal_spec hs
      have h1 : load_system_prompt penv st false =
          { result := s,
            state := { mem := some s,
                       file := if penv.writeOk then .stored (some s) else st.file },
            ioReads := 1 } := by
        simp [load_system_prompt, hm, hs, hconf]
      have ht : truthy (some s) = true := by simp [truthy, hne]
      rw [h1]
      simp [load_system_prompt, ht, hm]

/-- Witness for C7: a concrete memory-populated state where both calls
return `"P"` with zero I/O. -/
theorem c7_witness :
    (load_system_prompt penvDown stMem false).result =
      (load_system_prompt penvDown (load_system_prompt penvDown stMem false).state false).result ∧
    (load_system_prompt penvDown stMem false).ioReads +
      (load_system_prompt penvDown (load_system_prompt penvDown stMem false).state false).ioReads ≤ 1 ∧
    (truthy stMem.mem = true →
      (load_system_prompt penvDown stMem false).ioReads = 0 ∧
      (load_system_prompt penvDown (load_system_prompt penvDown stMem false).state false).ioReads = 0) :=
  c7_get_idempotent_one_io penvDown stMem (Or.inl (by decide))

/-! ## C8 -/

/-- C8: for every non-empty, non-whitespace-only value v, a successful
set(v) followed by get(forceSync=false) — under any environment for the
get — returns exactly v, with no I/O on the get. -/
theorem c8_set_get_roundtrip
    (penv penv2 : PromptEnv) (st : CacheState) (v : String)
    (h1 : v ≠ "") (h2 : pyStrip v ≠ "") :
    (update_system_prompt penv st [("system_prompt", v)]).outcome =
      .ok ("System prompt updated", v) ∧
    (load_system_prompt penv2
      (update_system_prompt penv st [("system_prompt", v)]).state false).result = v ∧
    (load_system_prompt penv2
      (update_system_prompt penv st [("system_prompt", v)]).state false).ioReads = 0 := by
  have hd : dictGet [("system_prompt", v)] "system_prompt" "" = v := by
    simp [dictGet]
  have ht : truthy (some v) = true := by simp [truthy, h1]
  simp [update_system_prompt, hd, h1, h2, load_system_prompt, ht]

/-- Witness for C8: a concrete round trip through set and get. -/
theorem c8_witness :
    ("You are helpful" : String) ≠ "" ∧
    pyStrip "You are helpful" ≠ "" ∧
    (load_system_prompt penvDown
      (update_system_prompt penvDown stEmpty
        [("system_prompt", "You are helpful")]).state false).result =
      "You are helpful" :=
  ⟨by decide, by decide,
    (c8_set_get_roundtrip penvDown penvDown stEmpty "You are helpful"
      (by decide) (by decide)).2.1⟩

/-! ## Chat fixtures -/

/-- A turn environment where the model raises with an empty message and
the index is disconnected. -/
def cenvAllFail : ChatEnv :=
  ⟨fun _ => Except.error "", false, fun _ => Except.error "index down"⟩

/-- A turn environment with a live model and a raising retriever. -/
def cenvRetrFail : ChatEnv :=
  ⟨fun p => Except.ok ("ans: " ++ p), true, fun _ => Except.error "pinecone down"⟩

/-- A minimal greeting request with empty history. -/
def reqHello : ChatRequest := ⟨"Hello", "u1", "c1", []⟩

/-- A follow-up request with non-empty history and a long enough
message that the rewrite step runs. -/
def reqFollow : ChatRequest :=
  ⟨"What do they sell these days?", "u1", "c1",
   [⟨some "user", some "My company is Acme"⟩]⟩

/-- A model that answers the rewrite request for `reqFollow` but raises
at synthesis and on the direct fallback input, so the standalone
question differs from the raw message while synthesis still fails. -/
def llmRewriteOnly (q : String) : Except String String :=
  if q = rephraseTemplate (chatHistoryStr reqFollow.history) reqFollow.message
  then Except.ok "What does Acme sell?"
  else Except.error ("fail: " ++ q)

/-- A turn environment where only the rewrite call succeeds. -/
def cenvSynFail : ChatEnv :=
  ⟨llmRewriteOnly, false, fun _ => Except.error "down"⟩

/-! ## Trace helper lemmas -/

/-- The contextualization step makes no direct model call. -/
theorem contextualize_no_direct (cenv : ChatEnv) (h m : String) :
    ((contextualizeStep cenv h m).2).filter isDirect = [] := by
  unfold contextualizeStep
  split
  · cases hl : cenv.llm (rephraseTemplate h m) <;> simp [hl, isDirect]
  · rfl

/-- The retrieval step makes no direct model call. -/
theorem retrieval_no_direct (cenv : ChatEnv) (q : String) :
    ((retrievalStep cenv q).2).filter isDirect = [] := by
  unfold retrievalStep
  split
  · split <;> simp [isDirect]
  · rfl

/-- Any retrieval call recorded by the retrieval step used its input
query. -/
theorem retrieval_mem_query {cenv : ChatEnv} {s q : String}
    (h : Call.retrieval q ∈ (retrievalStep cenv s).2) : q = s := by
  unfold retrievalStep at h
  split at h
  · split at h <;> simp_all
  · simp at h

/-- The contextualization step records no retrieval call. -/
theorem contextualize_no_retrieval {cenv : ChatEnv} {hs m q : String}
    (hm : Call.retrieval q ∈ (contextualizeStep cenv hs m).2) : False := by
  unfold contextualizeStep at hm
  split at hm
  · cases hl : cenv.llm (rephraseTemplate hs m) <;> simp [hl] at hm
  · simp at hm

/-- The generation step records no retrieval call. -/
theorem gen_no_retrieval {cenv : ChatEnv} {p m q : String}
    (h : Call.retrieval q ∈ (generationWithFallback cenv p m).calls) : False := by
  unfold generationWithFallback at h
  split at h
  · simp_all
  · split at h <;> simp_all

/-- When the synthesis call raises, generation makes exactly the chain
call followed by one direct call on `m`; the direct call's success
yields its answer, its failure yields the apology plus the synthesis
error. -/
theorem gen_synfail (cenv : ChatEnv) (p m e : String)
    (h : cenv.llm p = Except.error e) :
    (generationWithFallback cenv p m).calls =
      [Call.llmChain p, Call.llmDirect m] ∧
    (∀ r, cenv.llm m = Except.ok r →
      (generationWithFallback cenv p m).response = r ∧
      (generationWithFallback cenv p m).err = none) ∧
    (∀ e2, cenv.llm m = Except.error e2 →
      (generationWithFallback cenv p m).response = APOLOGY ∧
      (generationWithFallback cenv p m).err = some e) := by
  unfold generationWithFallback
  rw [h]
  refine ⟨?_, ?_, ?_⟩
  · cases cenv.llm m <;> rfl
  · intro r hr
    rw [hr]
    exact ⟨rfl, rfl⟩
  · intro e2 he2
    rw [he2]
    exact ⟨rfl, rfl⟩

/-- In every turn, the response, error field and trace of the result
are those of the generation step applied to the turn's synthesis prompt
and the raw original message, after the contextualize and retrieval
calls. -/
theorem chat_gen_decomp (cenv : ChatEnv) (penv : PromptEnv) (st : CacheState)
    (req : ChatRequest) :
    (chat cenv penv st req).response =
      (generationWithFallback cenv
        (chat cenv penv st req).synthesisPrompt req.message).response ∧
    (chat cenv penv st req).error =
      (generationWithFallback cenv
        (chat cenv penv st req).synthesisPrompt req.message).err ∧
    (chat cenv penv st req).trace =
      (contextualizeStep cenv (chatHistoryStr req.history) req.message).2 ++
      (retrievalStep cenv (standaloneQuestion cenv req)).2 ++
      (generationWithFallback cenv
        (chat cenv penv st req).synthesisPrompt req.message).calls := by
  simp only [chat, standaloneQuestion]
  split <;> simp

/-! ## C4 -/

/-- C4: for every message and history, if the history is empty or the
message has fewer than 4 whitespace-separated words, the
contextualization step returns the message unchanged and makes no
rewrite request, regardless of history content. -/
theorem c4_contextualize_skips
    (cenv : ChatEnv) (history : List HistMsg) (message : String)
    (h : history = [] ∨ (pySplit message).length < 4) :
    contextualizeStep cenv (chatHistoryStr history) message = (message, []) := by
  unfold contextualizeStep
  rcases h with h | h
  · subst h
    have he : chatHistoryStr [] = "" := rfl
    rw [he]
    simp
  · have hg : is_greeting message = true := by
      unfold is_greeting
      exact decide_eq_true h
    rw [if_neg]
    simp [hg]

/-- Witness for C4: a three-word greeting with empty history is passed
through unchanged with no model call. -/
theorem c4_witness :
    (([] : List HistMsg) = [] ∨ (pySplit "Hello").length < 4) ∧
    contextualizeStep cenvRetrFail (chatHistoryStr []) "Hello" = ("Hello", []) :=
  ⟨Or.inl rfl, c4_contextualize_skips cenvRetrFail [] "Hello" (Or.inl rfl)⟩

/-! ## C10 -/

/-- C10: a retrieved chunk whose metadata lacks a `filename` entry gets
the literal fallback source label `doc` in its context block, so every
block carries a source label. -/
theorem c10_missing_filename_uses_doc (d : Doc)
    (h : dictFind d.metadata "filename" = none) :
    sourceBlock d = "[Source: doc]: " ++ d.page_content := by
  unfold sourceBlock dictGet
  unfold dictFind at h
  rcases hf : d.metadata.find? (fun p => p.1 = "filename") with _ | p
  · rw [hf]
    rfl
  · rw [hf] at h
    simp at h

/-- Witness for C10: a chunk with only a `page` metadata entry is
labelled `doc`. -/
theorem c10_witness :
    dictFind [("page", "1")] "filename" = none ∧
    sourceBlock ⟨"Acme sells widgets", [("page", "1")]⟩ =
      "[Source: doc]: Acme sells widgets" :=
  ⟨rfl, by
    rw [c10_missing_filename_uses_doc ⟨"Acme sells widgets", [("page", "1")]⟩ rfl]
    decide⟩

/-! ## C5 -/

/-- C5: for every non-empty chunk list, the assembled context text is
the `[Source: label]: text` blocks joined by blank lines, with exactly
one block per chunk, the i-th block built from the i-th chunk — i.e. in
the adapter's returned (retrieval rank) order. -/
theorem c5_context_blocks_in_order (docs : List Doc) (h : docs ≠ []) :
    contextTextOf docs = String.intercalate "\n\n" (contextBlocks docs) ∧
    (contextBlocks docs).length = docs.length ∧
    ∀ i (hi : i < docs.length) (hi2 : i < (contextBlocks docs).length),
      (contextBlocks docs).get ⟨i, hi2⟩ = sourceBlock (docs.get ⟨i, hi⟩) := by
  refine ⟨rfl, by simp [contextBlocks], ?_⟩
  intro i hi hi2
  simp [contextBlocks]

/-- A two-chunk retrieval result used by the C5 witness. -/
def docsFixture : List Doc :=
  [⟨"Acme sells widgets", [("filename", "doc1.pdf")]⟩,
   ⟨"Acme is in Berlin", [("filename", "doc2.pdf")]⟩]

/-- Witness for C5: both blocks appear, labelled and in order. -/
theorem c5_witness :
    docsFixture ≠ [] ∧
    (contextBlocks docsFixture).length = docsFixture.length ∧
    contextTextOf docsFixture =
      "[Source: doc1.pdf]: Acme sells widgets\n\n[Source: doc2.pdf]: Acme is in Berlin" :=
  ⟨by simp [docsFixture],
   (c5_context_blocks_in_order docsFixture (by simp [docsFixture])).2.1,
   by rfl⟩

/-! ## C3 -/

/-- C3: for every chat turn in which the retrieval call raises or the
index is unavailable, retrieval yields an empty chunk sequence rather
than an error, the synthesis prompt is the general-knowledge template
(no context section), and the turn result has usedContext = false. -/
theorem c3_retrieval_failure_general_mode
    (cenv : ChatEnv) (penv : PromptEnv) (st : CacheState) (req : ChatRequest)
    (msg : String)
    (h : cenv.vectorstoreOk = false ∨
         cenv.retrieve (standaloneQuestion cenv req) = Except.error msg) :
    (retrievalStep cenv (standaloneQuestion cenv req)).1 = [] ∧
    (chat cenv penv st req).usedContext = false ∧
    (chat cenv penv st req).synthesisPrompt =
      generalTemplate (load_system_prompt penv st false).result
        (chatHistoryStr req.history) req.message := by
  have hret1 : (retrievalStep cenv
      (contextualizeStep cenv (chatHistoryStr req.history) req.message).1).1 = [] := by
    unfold retrievalStep
    rcases h with h | h
    · simp [h]
    · simp only [standaloneQuestion] at h
      rw [h]
      split <;> simp
  refine ⟨hret1, ?_, ?_⟩ <;>
  · simp only [chat]
    rw [hret1]
    simp

/-- Witness for C3: a raising retriever yields a general-knowledge turn
with usedContext = false. -/
theorem c3_witness :
    cenvRetrFail.retrieve (standaloneQuestion cenvRetrFail reqHello) =
      Except.error "pinecone down" ∧
    (chat cenvRetrFail penvDown stEmpty reqHello).usedContext = false :=
  ⟨rfl,
   (c3_retrieval_failure_general_mode cenvRetrFail penvDown stEmpty reqHello
     "pinecone down" (Or.inr rfl)).2.1⟩

/-! ## C9 -/

/-- C9: in every turn, any retrieval call made uses the standalone
(contextualized) question; when retrieval yields no chunks the synthesis
prompt sent to the model is the general-knowledge template built with
the raw original user message, and when it yields chunks the synthesis
prompt is the grounded template built with the standalone question. -/
theorem c9_general_mode_uses_raw_message
    (cenv : ChatEnv) (penv : PromptEnv) (st : CacheState) (req : ChatRequest) :
    (∀ q, Call.retrieval q ∈ (chat cenv penv st req).trace →
      q = standaloneQuestion cenv req) ∧
    ((retrievalStep cenv (standaloneQuestion cenv req)).1 = [] →
      (chat cenv penv st req).synthesisPrompt =
        generalTemplate (load_system_prompt penv st false).result
          (chatHistoryStr req.history) req.message) ∧
    ((retrievalStep cenv (standaloneQuestion cenv req)).1 ≠ [] →
      (chat cenv penv st req).synthesisPrompt =
        groundedTemplate (load_system_prompt penv st false).result
          (chatHistoryStr req.history)
          (contextTextOf (retrievalStep cenv (standaloneQuestion cenv req)).1)
          (standaloneQuestion cenv req)) := by
  refine ⟨?_, ?_, ?_⟩
  · intro q hmem
    simp only [chat] at hmem
    split at hmem <;>
    · simp only [List.append_assoc, List.mem_append] at hmem
      rcases hmem with h1 | h2 | h3
      · exact absurd h1 (fun hh => contextualize_no_retrieval hh)
      · exact retrieval_mem_query h2
      · exact absurd h3 (fun hh => gen_no_retrieval hh)
  · intro hnil
    simp only [standaloneQuestion] at hnil
    simp only [chat]
    rw [hnil]
    simp
  · intro hnonnil
    simp only [standaloneQuestion] at hnonnil ⊢
    rcases hcl : (retrievalStep cenv
        (contextualizeStep cenv (chatHistoryStr req.history) req.message).1).1
      with _ | ⟨d, ds⟩
    · exact absurd hcl hnonnil
    · simp only [chat]
      rw [hcl]
      simp

/-- Witness for C9: with a failing retriever the synthesis prompt is
the general-knowledge template over the raw message. -/
theorem c9_witness :
    (chat cenvRetrFail penvDown stMem reqHello).synthesisPrompt =
      generalTemplate (load_system_prompt penvDown stMem false).result
        (chatHistoryStr reqHello.history) reqHello.message :=
  (c9_general_mode_uses_raw_message cenvRetrFail penvDown stMem reqHello).2.1 rfl

/-! ## C1 -/

/-- C1 (amended): for every chat turn in which the grounded/general
synthesis call raises, the orchestrator makes exactly one direct model
call whose input is exactly the raw original user message (no context,
no history); if that direct call succeeds its answer is the response
with no error, and if it also raises the turn returns the fixed
apologetic message together with an internal error detail equal to the
stringified synthesis exception — the turn always produces some
response; the detail is non-empty exactly when that exception's message
is, not unconditionally. -/
theorem c1_total_failure_fallback
    (cenv : ChatEnv) (penv : PromptEnv) (st : CacheState) (req : ChatRequest)
    (e : String)
    (hsyn : cenv.llm ((chat cenv penv st req).synthesisPrompt) =
      Except.error e) :
    ((chat cenv penv st req).trace).filter isDirect =
      [Call.llmDirect req.message] ∧
    (∀ r, cenv.llm req.message = Except.ok r →
      (chat cenv penv st req).response = r ∧
      (chat cenv penv st req).error = none) ∧
    (∀ e2, cenv.llm req.message = Except.error e2 →
      (chat cenv penv st req).response = APOLOGY ∧
      (chat cenv penv st req).error = some e) := by
  obtain ⟨hresp, herr, htrace⟩ := chat_gen_decomp cenv penv st req
  obtain ⟨hcalls, hok, hfail⟩ :=
    gen_synfail cenv ((chat cenv penv st req).synthesisPrompt) req.message e hsyn
  refine ⟨?_, ?_, ?_⟩
  · rw [htrace, hcalls]
    simp [List.filter_append, contextualize_no_direct, retrieval_no_direct,
      isDirect]
  · intro r hr
    obtain ⟨h1, h2⟩ := hok r hr
    exact ⟨hresp.trans h1, herr.trans h2⟩
  · intro e2 he2
    obtain ⟨h1, h2⟩ := hfail e2 he2
    exact ⟨hresp.trans h1, herr.trans h2⟩

set_option maxRecDepth 4000 in
/-- Witness for C1: a turn whose rewrite succeeds (so the standalone
question differs from the raw message) but whose synthesis and direct
fallback raise yields exactly one direct call on the raw original
message, the apology, and the synthesis error as detail. -/
theorem c1_witness :
    standaloneQuestion cenvSynFail reqFollow ≠ reqFollow.message ∧
    ((chat cenvSynFail penvDown stEmpty reqFollow).trace).filter isDirect =
      [Call.llmDirect reqFollow.message] ∧
    (chat cenvSynFail penvDown stEmpty reqFollow).response = APOLOGY ∧
    (chat cenvSynFail penvDown stEmpty reqFollow).error =
      some ("fail: " ++
        (chat cenvSynFail penvDown stEmpty reqFollow).synthesisPrompt) := by
  obtain ⟨h1, _, h3⟩ := c1_total_failure_fallback cenvSynFail penvDown stEmpty
    reqFollow
    ("fail: " ++ (chat cenvSynFail penvDown stEmpty reqFollow).synthesisPrompt)
    rfl
  obtain ⟨h4, h5⟩ := h3 ("fail: " ++ reqFollow.message) rfl
  exact ⟨by decide, h1, h4, h5⟩

/-- C1 counterexample: with a model whose exception stringifies to the
empty string, the turn returns the fixed apology but the internal error
detail carried in the result is the empty string — the claim's
"non-empty internal error detail" does not hold as stated. -/
theorem c1_counterexample_empty_detail :
    (chat cenvAllFail penvDown stEmpty reqHello).response = APOLOGY ∧
    (chat cenvAllFail penvDown stEmpty reqHello).error = some "" :=
  ⟨rfl, rfl⟩
